import Mathlib

/-!
Shallow embedding of the plan-classification heuristic of src/server.js:
the functions `normalize` and `parsePlan`, the OCR branch of the /submit
request handler (its success test), and the asserted plan-type branch.
Text is modelled as Lean strings; the character-level operations mirror
the JavaScript ones on ASCII data (toUpperCase, the character class
[A-Z0-9], String.includes, and the regex word boundary \b).
-/

namespace Server

/-- JS word-character class \w = [A-Za-z0-9_], used by the regex word boundary \b. -/
def isWordChar (c : Char) : Bool :=
  c.isAlpha || c.isDigit || c == '_'

/-- Characters kept by the JS step replace with the class [^A-Z0-9] removed:
uppercase ASCII letters and digits. -/
def keepAlnum (c : Char) : Bool :=
  c.isUpper || c.isDigit

/-- src/server.js `normalize`: uppercase the text and strip every character
outside [A-Z0-9]. The JS function returns a string; we model it as the
character sequence of that string. -/
def normalize (text : String) : List Char :=
  (text.data.map Char.toUpper).filter keepAlnum

/-- The uppercased character sequence of the input, the local value `up`
in `parsePlan`. -/
def upChars (text : String) : List Char :=
  text.data.map Char.toUpper

/-- JS String.includes: `tok` occurs as a contiguous substring of `hay`. -/
def includesSub : List Char → List Char → Bool
  | [], tok => tok.isEmpty
  | c :: rest, tok => tok.isPrefixOf (c :: rest) || includesSub rest tok

/-- One word-boundary regex match attempt at the current position: `prev` is
the character just before `s` (none at the start of the string); the token
must occur at the head of `s` with no word character adjacent on either side. -/
def boundaryMatchAt (tok s : List Char) (prev : Option Char) : Bool :=
  (match prev with
    | none => true
    | some c => !isWordChar c) &&
  tok.isPrefixOf s &&
  (match s.drop tok.length with
    | [] => true
    | c :: _ => !isWordChar c)

/-- JS regex test for a token between word boundaries anywhere in the string,
as in the test of \bPPO\b against `up`. -/
def boundaryMatch (tok : List Char) : Option Char → List Char → Bool
  | prev, [] => boundaryMatchAt tok [] prev
  | prev, c :: rest => boundaryMatchAt tok (c :: rest) prev || boundaryMatch tok (some c) rest

/-- `hasPPO` flag of parsePlan. -/
def hasPPO (text : String) : Bool :=
  boundaryMatch "PPO".data none (upChars text) ||
    includesSub (normalize text) "PPO".data ||
    includesSub (normalize text) "PREFERREDPROVIDERORGANIZATION".data

/-- `hasPOS` flag of parsePlan. -/
def hasPOS (text : String) : Bool :=
  boundaryMatch "POS".data none (upChars text) ||
    includesSub (normalize text) "POS".data ||
    includesSub (normalize text) "POINTOFSERVICE".data

/-- `hasHMO` flag of parsePlan. -/
def hasHMO (text : String) : Bool :=
  boundaryMatch "HMO".data none (upChars text) ||
    includesSub (normalize text) "HMO".data ||
    includesSub (normalize text) "HEALTHMAINTENANCEORGANIZATION".data

/-- `hasEPO` flag of parsePlan. -/
def hasEPO (text : String) : Bool :=
  boundaryMatch "EPO".data none (upChars text) ||
    includesSub (normalize text) "EPO".data ||
    includesSub (normalize text) "EXCLUSIVEPROVIDERORGANIZATION".data

/-- `hasMedicare` flag of parsePlan. -/
def hasMedicare (text : String) : Bool :=
  includesSub (normalize text) "MEDICARE".data

/-- `hasMedicaid` flag of parsePlan. -/
def hasMedicaid (text : String) : Bool :=
  includesSub (normalize text) "MEDICAID".data

/-- `hasOther` flag of parsePlan: the remaining non-commercial indicators. -/
def hasOther (text : String) : Bool :=
  includesSub (normalize text) "TRICARE".data ||
    includesSub (normalize text) "VETERANS".data ||
    includesSub (normalize text) "VA".data ||
    includesSub (normalize text) "CATASTROPHIC".data

/-- The record returned by parsePlan. -/
structure PlanResult where
  planType : String
  hasOON : Bool
  conflict : Bool
deriving DecidableEq

/-- The list `flags` of parsePlan, in source order. -/
def planFlags (text : String) : List Bool :=
  [hasPPO text, hasPOS text, hasHMO text, hasEPO text]

/-- src/server.js `parsePlan`: non-commercial check first, then the
single-plan-type count, then the category assignment. -/
def parsePlan (text : String) : PlanResult :=
  if hasMedicare text || hasMedicaid text || hasOther text then
    { planType := "NON-COMMERCIAL", hasOON := false, conflict := true }
  else
    let count := (List.filter id (planFlags text)).length
    if count ≠ 1 then
      { planType := if count = 0 then "UNKNOWN" else "CONFLICT", hasOON := false, conflict := true }
    else if hasPPO text then { planType := "PPO", hasOON := true, conflict := false }
    else if hasPOS text then { planType := "POS", hasOON := true, conflict := false }
    else if hasHMO text then { planType := "HMO", hasOON := false, conflict := false }
    else { planType := "EPO", hasOON := false, conflict := false }

/-- The /submit handler OCR-branch decision: it sends success exactly when
not (analysis.conflict || !analysis.hasOON). -/
def submitEligible (text : String) : Bool :=
  let analysis := parsePlan text
  !(analysis.conflict || !analysis.hasOON)

/-- The planType branch of the /submit handler: `const type = planType.toUpperCase()`. -/
def assertedType (planType : String) : String :=
  String.mk (planType.data.map Char.toUpper)

/-- The planType branch eligibility test: type is PPO or POS. -/
def assertedEligible (planType : String) : Bool :=
  assertedType planType == "PPO" || assertedType planType == "POS"

end Server

namespace Server

/-- C1: for every input string, the /submit handler treats the classification
as success (visitor eligible) exactly when the detected category is PPO or
POS; equivalently, exactly when no non-commercial flag fired, exactly one of
the four commercial plan-type flags fired, and it was the PPO or the POS
flag. -/
theorem submit_eligible_iff_ppo_or_pos (text : String) :
    (submitEligible text = true ↔
      ((parsePlan text).planType = "PPO" ∨ (parsePlan text).planType = "POS")) ∧
    (submitEligible text = true ↔
      (hasMedicare text = false ∧ hasMedicaid text = false ∧ hasOther text = false ∧
        (List.filter id (planFlags text)).length = 1 ∧
        (hasPPO text = true ∨ hasPOS text = true))) := by
  simp only [submitEligible, parsePlan, planFlags]
  rcases Bool.dichotomy (hasMedicare text) with hM | hM <;>
  rcases Bool.dichotomy (hasMedicaid text) with hMc | hMc <;>
  rcases Bool.dichotomy (hasOther text) with hO | hO <;>
  rcases Bool.dichotomy (hasPPO text) with hP | hP <;>
  rcases Bool.dichotomy (hasPOS text) with hS | hS <;>
  rcases Bool.dichotomy (hasHMO text) with hH | hH <;>
  rcases Bool.dichotomy (hasEPO text) with hE | hE <;>
  simp only [hM, hMc, hO, hP, hS, hH, hE] <;> decide

/-- C2: non-commercial detection has priority and short-circuits. Whenever
the uppercased, non-alphanumeric-stripped text contains one of MEDICARE,
MEDICAID, TRICARE, VA, VETERANS, CATASTROPHIC, the classification is
NON-COMMERCIAL with hasOON false and the handler rejects, regardless of any
commercial plan-type token also present. -/
theorem nonCommercial_priority (text : String)
    (h : includesSub (normalize text) "MEDICARE".data = true ∨
      includesSub (normalize text) "MEDICAID".data = true ∨
      includesSub (normalize text) "TRICARE".data = true ∨
      includesSub (normalize text) "VA".data = true ∨
      includesSub (normalize text) "VETERANS".data = true ∨
      includesSub (normalize text) "CATASTROPHIC".data = true) :
    (parsePlan text).planType = "NON-COMMERCIAL" ∧ (parsePlan text).hasOON = false ∧
      submitEligible text = false := by
  have hflag : (hasMedicare text || hasMedicaid text || hasOther text) = true := by
    rcases h with h | h | h | h | h | h <;>
      simp [hasMedicare, hasMedicaid, hasOther, h]
  refine ⟨?_, ?_, ?_⟩ <;> simp [parsePlan, submitEligible, hflag]

/-- C2 witness: the text "MEDICARE ADVANTAGE PPO" contains MEDICARE (and a
PPO token) and is classified NON-COMMERCIAL, not eligible. -/
theorem nonCommercial_priority_witness :
    (includesSub (normalize "MEDICARE ADVANTAGE PPO") "MEDICARE".data = true ∨
      includesSub (normalize "MEDICARE ADVANTAGE PPO") "MEDICAID".data = true ∨
      includesSub (normalize "MEDICARE ADVANTAGE PPO") "TRICARE".data = true ∨
      includesSub (normalize "MEDICARE ADVANTAGE PPO") "VA".data = true ∨
      includesSub (normalize "MEDICARE ADVANTAGE PPO") "VETERANS".data = true ∨
      includesSub (normalize "MEDICARE ADVANTAGE PPO") "CATASTROPHIC".data = true) ∧
    ((parsePlan "MEDICARE ADVANTAGE PPO").planType = "NON-COMMERCIAL" ∧
      (parsePlan "MEDICARE ADVANTAGE PPO").hasOON = false ∧
      submitEligible "MEDICARE ADVANTAGE PPO" = false) :=
  ⟨by decide, nonCommercial_priority "MEDICARE ADVANTAGE PPO" (by decide)⟩

/-- C3: when two or more distinct commercial plan-type flags fire and no
non-commercial flag fires, the classification is CONFLICT and the handler
rejects. -/
theorem multi_token_conflict (text : String)
    (hm : hasMedicare text = false) (hc : hasMedicaid text = false) (ho : hasOther text = false)
    (h2 : 2 ≤ (List.filter id (planFlags text)).length) :
    (parsePlan text).planType = "CONFLICT" ∧ submitEligible text = false := by
  revert hm hc ho h2
  simp only [submitEligible, parsePlan, planFlags]
  rcases Bool.dichotomy (hasMedicare text) with hM | hM <;>
  rcases Bool.dichotomy (hasMedicaid text) with hMc | hMc <;>
  rcases Bool.dichotomy (hasOther text) with hO | hO <;>
  rcases Bool.dichotomy (hasPPO text) with hP | hP <;>
  rcases Bool.dichotomy (hasPOS text) with hS | hS <;>
  rcases Bool.dichotomy (hasHMO text) with hH | hH <;>
  rcases Bool.dichotomy (hasEPO text) with hE | hE <;>
  simp only [hM, hMc, hO, hP, hS, hH, hE] <;> decide

/-- C3 witness: the scenario input with all four plan-type tokens yields
CONFLICT and is not eligible. -/
theorem multi_token_conflict_witness :
    (hasMedicare "THIS INSURER OFFERS PPO POS HMO AND EPO PLANS" = false ∧
      hasMedicaid "THIS INSURER OFFERS PPO POS HMO AND EPO PLANS" = false ∧
      hasOther "THIS INSURER OFFERS PPO POS HMO AND EPO PLANS" = false ∧
      2 ≤ (List.filter id (planFlags "THIS INSURER OFFERS PPO POS HMO AND EPO PLANS")).length) ∧
    ((parsePlan "THIS INSURER OFFERS PPO POS HMO AND EPO PLANS").planType = "CONFLICT" ∧
      submitEligible "THIS INSURER OFFERS PPO POS HMO AND EPO PLANS" = false) :=
  ⟨⟨by decide, by decide, by decide, by decide⟩,
    multi_token_conflict "THIS INSURER OFFERS PPO POS HMO AND EPO PLANS"
      (by decide) (by decide) (by decide) (by decide)⟩

/-- C4: when exactly one of the PPO and POS flags fires and no other
plan-type flag and no non-commercial flag fires, the classification carries
hasOON true, the handler accepts, and the category is PPO or POS. -/
theorem single_ppo_pos_eligible (text : String)
    (hm : hasMedicare text = false) (hc : hasMedicaid text = false) (ho : hasOther text = false)
    (hps : (hasPPO text = true ∧ hasPOS text = false) ∨
      (hasPPO text = false ∧ hasPOS text = true))
    (hh : hasHMO text = false) (he : hasEPO text = false) :
    (parsePlan text).hasOON = true ∧ submitEligible text = true ∧
      ((parsePlan text).planType = "PPO" ∨ (parsePlan text).planType = "POS") := by
  revert hm hc ho hps hh he
  simp only [submitEligible, parsePlan, planFlags]
  rcases Bool.dichotomy (hasMedicare text) with hM | hM <;>
  rcases Bool.dichotomy (hasMedicaid text) with hMc | hMc <;>
  rcases Bool.dichotomy (hasOther text) with hO | hO <;>
  rcases Bool.dichotomy (hasPPO text) with hP | hP <;>
  rcases Bool.dichotomy (hasPOS text) with hS | hS <;>
  rcases Bool.dichotomy (hasHMO text) with hH | hH <;>
  rcases Bool.dichotomy (hasEPO text) with hE | hE <;>
  simp only [hM, hMc, hO, hP, hS, hH, hE] <;> decide

/-- C4 witness: the scenario input "ABC HEALTH PPO PLAN MEMBER ID 12345" has
only the PPO flag set and is accepted with hasOON true. -/
theorem single_ppo_pos_eligible_witness :
    (hasMedicare "ABC HEALTH PPO PLAN MEMBER ID 12345" = false ∧
      hasMedicaid "ABC HEALTH PPO PLAN MEMBER ID 12345" = false ∧
      hasOther "ABC HEALTH PPO PLAN MEMBER ID 12345" = false ∧
      hasPPO "ABC HEALTH PPO PLAN MEMBER ID 12345" = true ∧
      hasPOS "ABC HEALTH PPO PLAN MEMBER ID 12345" = false ∧
      hasHMO "ABC HEALTH PPO PLAN MEMBER ID 12345" = false ∧
      hasEPO "ABC HEALTH PPO PLAN MEMBER ID 12345" = false ∧
      (parsePlan "ABC HEALTH PPO PLAN MEMBER ID 12345").planType = "PPO") ∧
    ((parsePlan "ABC HEALTH PPO PLAN MEMBER ID 12345").hasOON = true ∧
      submitEligible "ABC HEALTH PPO PLAN MEMBER ID 12345" = true ∧
      ((parsePlan "ABC HEALTH PPO PLAN MEMBER ID 12345").planType = "PPO" ∨
        (parsePlan "ABC HEALTH PPO PLAN MEMBER ID 12345").planType = "POS")) :=
  ⟨by decide,
    single_ppo_pos_eligible "ABC HEALTH PPO PLAN MEMBER ID 12345"
      (by decide) (by decide) (by decide) (Or.inl ⟨by decide, by decide⟩)
      (by decide) (by decide)⟩

end Server

namespace Server

/-- C5: the classifier is a total Lean function over strings (it is defined
for every input by construction), and when no recognizable flag fires, as
for the empty string, the category is UNKNOWN and the handler rejects
rather than failing. -/
theorem classifier_total_unknown (text : String)
    (hp : hasPPO text = false) (hs : hasPOS text = false)
    (hh : hasHMO text = false) (he : hasEPO text = false)
    (hm : hasMedicare text = false) (hc : hasMedicaid text = false)
    (ho : hasOther text = false) :
    (parsePlan text).planType = "UNKNOWN" ∧ submitEligible text = false := by
  revert hp hs hh he hm hc ho
  simp only [submitEligible, parsePlan, planFlags]
  rcases Bool.dichotomy (hasMedicare text) with hM | hM <;>
  rcases Bool.dichotomy (hasMedicaid text) with hMc | hMc <;>
  rcases Bool.dichotomy (hasOther text) with hO | hO <;>
  rcases Bool.dichotomy (hasPPO text) with hP | hP <;>
  rcases Bool.dichotomy (hasPOS text) with hS | hS <;>
  rcases Bool.dichotomy (hasHMO text) with hH | hH <;>
  rcases Bool.dichotomy (hasEPO text) with hE | hE <;>
  simp only [hM, hMc, hO, hP, hS, hH, hE] <;> decide

/-- C5 witness: the empty string fires no flag and is classified UNKNOWN,
not eligible. -/
theorem classifier_total_unknown_witness :
    (hasPPO "" = false ∧ hasPOS "" = false ∧ hasHMO "" = false ∧ hasEPO "" = false ∧
      hasMedicare "" = false ∧ hasMedicaid "" = false ∧ hasOther "" = false) ∧
    ((parsePlan "").planType = "UNKNOWN" ∧ submitEligible "" = false) :=
  ⟨by decide,
    classifier_total_unknown "" (by decide) (by decide) (by decide) (by decide)
      (by decide) (by decide) (by decide)⟩

/-- C6: the asserted plan-type branch uppercases the asserted string and
accepts exactly when the result is PPO or POS; in particular the asserted
type "pos" yields POS and is eligible. -/
theorem asserted_type_eligible (p : String) :
    (assertedEligible p = true ↔ (assertedType p = "PPO" ∨ assertedType p = "POS")) ∧
    assertedType "pos" = "POS" ∧ assertedEligible "pos" = true := by
  refine ⟨?_, by decide, by decide⟩
  simp [assertedEligible]

/-- C7: for every input string, the hasOON field of the classification is
true exactly when the assigned category is PPO or POS. -/
theorem hasOON_iff_ppo_or_pos (text : String) :
    (parsePlan text).hasOON = true ↔
      ((parsePlan text).planType = "PPO" ∨ (parsePlan text).planType = "POS") := by
  simp only [parsePlan, planFlags]
  rcases Bool.dichotomy (hasMedicare text) with hM | hM <;>
  rcases Bool.dichotomy (hasMedicaid text) with hMc | hMc <;>
  rcases Bool.dichotomy (hasOther text) with hO | hO <;>
  rcases Bool.dichotomy (hasPPO text) with hP | hP <;>
  rcases Bool.dichotomy (hasPOS text) with hS | hS <;>
  rcases Bool.dichotomy (hasHMO text) with hH | hH <;>
  rcases Bool.dichotomy (hasEPO text) with hE | hE <;>
  simp only [hM, hMc, hO, hP, hS, hH, hE] <;> decide

/-- C8: noise tolerance via the stripped variant. Classifying "P.P.O. PLAN"
and classifying "PPO PLAN" yield the same category, namely PPO. -/
theorem noise_tolerance_ppo :
    (parsePlan "P.P.O. PLAN").planType = (parsePlan "PPO PLAN").planType ∧
      (parsePlan "P.P.O. PLAN").planType = "PPO" := by
  decide

/-- C9: the conflict field is true exactly when the category is
NON-COMMERCIAL, UNKNOWN or CONFLICT; hasOON true and conflict true never
hold together; and the handler rejection test conflict || not hasOON equals
not hasOON alone. -/
theorem conflict_field_spec (text : String) :
    ((parsePlan text).conflict = true ↔
      ((parsePlan text).planType = "NON-COMMERCIAL" ∨
        (parsePlan text).planType = "UNKNOWN" ∨
        (parsePlan text).planType = "CONFLICT")) ∧
    ((parsePlan text).hasOON && (parsePlan text).conflict) = false ∧
    ((parsePlan text).conflict || !(parsePlan text).hasOON) = !(parsePlan text).hasOON := by
  simp only [parsePlan, planFlags]
  rcases Bool.dichotomy (hasMedicare text) with hM | hM <;>
  rcases Bool.dichotomy (hasMedicaid text) with hMc | hMc <;>
  rcases Bool.dichotomy (hasOther text) with hO | hO <;>
  rcases Bool.dichotomy (hasPPO text) with hP | hP <;>
  rcases Bool.dichotomy (hasPOS text) with hS | hS <;>
  rcases Bool.dichotomy (hasHMO text) with hH | hH <;>
  rcases Bool.dichotomy (hasEPO text) with hE | hE <;>
  simp only [hM, hMc, hO, hP, hS, hH, hE] <;> decide

/-- C10: any text whose uppercased, stripped form contains VA as a substring,
including innocent words such as PRIVATE or APPROVAL, is classified
NON-COMMERCIAL and rejected, even when a commercial plan-type token is also
present. -/
theorem va_substring_noncommercial (text : String)
    (h : includesSub (normalize text) "VA".data = true) :
    (parsePlan text).planType = "NON-COMMERCIAL" ∧ submitEligible text = false := by
  have hflag : (hasMedicare text || hasMedicaid text || hasOther text) = true := by
    simp [hasOther, h]
  constructor <;> simp [parsePlan, submitEligible, hflag]

/-- C10 witness: "PRIVATE PPO" contains VA inside PRIVATE and carries a PPO
token, yet is classified NON-COMMERCIAL and rejected. -/
theorem va_substring_noncommercial_witness :
    (includesSub (normalize "PRIVATE PPO") "VA".data = true ∧
      hasPPO "PRIVATE PPO" = true) ∧
    ((parsePlan "PRIVATE PPO").planType = "NON-COMMERCIAL" ∧
      submitEligible "PRIVATE PPO" = false) :=
  ⟨⟨by decide, by decide⟩, va_substring_noncommercial "PRIVATE PPO" (by decide)⟩

end Server
